import Mathlib

/-!
Shallow embedding of the Task-Management backend
(`src/index.js`, `src/Models/UserModel.js`) in Lean 4.

The embedding follows the JavaScript source closely:
* request-body / query fields are `Option` values; JavaScript falsiness
  (`!x`) on a string-valued field is `none` or the empty string;
* the Mongoose document store is a pair of lists (`users`, `tasks`);
  `findOne` is a first-match lookup, `findOneAndUpdate` / `findOneAndDelete`
  act on the first matching document; Mongoose strips `undefined` keys from
  update objects, so omitted fields of a `PUT /tasks/:id` body leave the
  stored field unchanged;
* the `jsonwebtoken` library is modelled by a concrete signed-token codec:
  `jwtVerifyStr` distinguishes a malformed/forged token from an expired one,
  exactly as the library throws `JsonWebTokenError` vs `TokenExpiredError`;
* the bcrypt hash is modelled as an opaque injective tag (out of scope for
  every claim; only its presence matters).
-/

namespace TaskBackend

/-- JavaScript falsiness of an optional string field (`!x`):
absent or the empty string. -/
def falsyS : Option String → Bool
  | none => true
  | some s => s = ""

/-- `x || d` for an optional string field, as in `status || 'pending'`. -/
def jsOr (v : Option String) (d : String) : String :=
  match v with
  | none => d
  | some s => if s = "" then d else s

/-- JavaScript single-character `split`: break a character list at every
occurrence of `sep`, keeping empty segments. -/
def splitChars (sep : Char) : List Char → List (List Char)
  | [] => [[]]
  | c :: cs =>
    if c = sep then [] :: splitChars sep cs
    else
      match splitChars sep cs with
      | [] => [[c]]
      | w :: ws => (c :: w) :: ws

/-- JavaScript `s.split(sep)` for a one-character separator. -/
def jsSplit (sep : Char) (s : String) : List String :=
  (splitChars sep s.data).map String.mk

/-- Parse a run of decimal digits; `none` on the empty run or a non-digit. -/
def parseNatAux : List Char → Nat → Option Nat
  | [], acc => some acc
  | c :: cs, acc =>
    if c.isDigit then parseNatAux cs (acc * 10 + (c.toNat - 48)) else none

/-- Parse a non-empty all-digit string fragment as a natural number. -/
def parseNat? (l : List Char) : Option Nat :=
  match l with
  | [] => none
  | _ => parseNatAux l 0

/-- A stored user document (`UserModel.js`).  The schema's `lowercase: true`
setter stores the email lower-cased; `password` holds the bcrypt hash. -/
structure User where
  id : Nat
  name : String
  email : String
  password : String
  deriving Repr, DecidableEq

/-- A stored task document (`TaskModel.js` fields as used by `index.js`). -/
structure Task where
  id : Nat
  title : String
  description : String
  status : String
  priority : String
  dueDate : Int
  userId : Nat
  reminderDate : Option Int
  deriving Repr, DecidableEq

/-- The document store reachable through Mongoose. -/
structure Store where
  users : List User
  tasks : List Task
  deriving Repr, DecidableEq

/-- Outcome of a request handler: an HTTP success with a payload, or an
HTTP error status together with the JSON error message the handler sends. -/
inductive Outcome (α : Type) where
  | ok (status : Nat) (value : α)
  | err (status : Nat) (msg : String)
  deriving Repr, DecidableEq

/-! ## Token issuer / verifier (`jsonwebtoken`) -/

/-- Decoded JWT payload: `{ id: ... , iat, exp }`. -/
structure Token where
  sub : Nat
  iat : Nat
  exp : Nat
  deriving Repr, DecidableEq

/-- HMAC signature model: a concrete function of the secret and payload. -/
def sign (secret : Nat) (t : Token) : Nat :=
  secret + 2 * t.sub + 3 * t.iat + 5 * t.exp

/-- Serialise a token as the compact string the client carries. -/
def encodeToken (secret : Nat) (t : Token) : String :=
  toString t.sub ++ "." ++ toString t.iat ++ "." ++ toString t.exp ++ "." ++
    toString (sign secret t)

/-- Parse a compact token string into its payload and claimed signature. -/
def decodeToken (s : String) : Option (Token × Nat) :=
  match (jsSplit '.' s).mapM (fun seg => parseNat? seg.data) with
  | some [a, b, c, d] => some (⟨a, b, c⟩, d)
  | _ => none

/-- The two failure kinds of `jwt.verify`: `JsonWebTokenError`
(unparseable or signature mismatch) and `TokenExpiredError`. -/
inductive VerifyError where
  | TokenMalformed
  | TokenExpired
  deriving Repr, DecidableEq

/-- `jwt.verify(token, secret)` at current time `now` (seconds):
malformed/forged tokens fail with `TokenMalformed`, then expiry is
checked (`TokenExpired` when `now` is past `exp`). -/
def jwtVerifyStr (secret now : Nat) (s : String) : Except VerifyError Token :=
  match decodeToken s with
  | none => .error .TokenMalformed
  | some (t, sig) =>
    if sig ≠ sign secret t then .error .TokenMalformed
    else if t.exp ≤ now then .error .TokenExpired
    else .ok t

/-- `jwt.sign({id}, secret, {expiresIn: '24h'})` issued at time `now`. -/
def jwtSign (secret now userId : Nat) : String :=
  encodeToken secret ⟨userId, now, now + 86400⟩

/-! ## Authentication middleware (`authenticateToken`, index.js 24-46) -/

/-- An HTTP error response sent by the middleware. -/
structure ErrResponse where
  status : Nat
  msg : String
  deriving Repr, DecidableEq

/-- `authHeader && authHeader.split of a space, index 1`: the second
space-separated segment of the Authorization header, when present. -/
def extractToken (authHeader : Option String) : Option String :=
  authHeader.bind (fun h => (jsSplit ' ' h).get? 1)

/-- The `authenticateToken` middleware: extract the token, verify it,
re-resolve the user, and hand the verified user id to the handler. -/
def authenticateToken (secret now : Nat) (users : List User)
    (authHeader : Option String) : Except ErrResponse Nat :=
  match extractToken authHeader with
  | none => .error ⟨401, "Access denied. No token provided."⟩
  | some tk =>
    if tk = "" then .error ⟨401, "Access denied. No token provided."⟩
    else
      match jwtVerifyStr secret now tk with
      | .error _ => .error ⟨400, "Invalid or expired token."⟩
      | .ok t =>
        match users.find? (fun u => u.id == t.sub) with
        | none => .error ⟨401, "Invalid token. User not found."⟩
        | some _ => .ok t.sub

/-- A protected endpoint: the middleware runs first; only on success does
the handler body touch the store. -/
def protectedEndpoint {α : Type} (secret now : Nat) (authHeader : Option String)
    (op : Store → Nat → Outcome α × Store) (s : Store) : Outcome α × Store :=
  match authenticateToken secret now s.users authHeader with
  | .error e => (.err e.status e.msg, s)
  | .ok uid => op s uid

/-! ## Registration (`POST /auth/register`, index.js 49-93) -/

/-- bcrypt hash, modelled as an opaque injective tag (pre-save hook,
`UserModel.js` 27-33). -/
def hashPassword (plaintext : String) : String :=
  "bcrypt$" ++ plaintext

/-- The schema setter `lowercase: true` on `email` (`UserModel.js` 10-16),
applied both when a document is stored and when a query filter is cast. -/
def normEmail (e : String) : String := String.mk (e.data.map Char.toLower)

/-- `POST /auth/register`: validate presence of the fields, reject a
duplicate email, then save.  Mongoose runs the schema validation
(`minlength: 6` on `password`) before the pre-save hashing hook; a
validation failure throws, which the handler's `catch` maps to a 500. -/
def register (s : Store) (freshId : Nat)
    (name email password : Option String) : Outcome User × Store :=
  if falsyS name || falsyS email || falsyS password then
    (.err 400 "Please provide name, email, and password", s)
  else
    match s.users.find? (fun u => u.email == normEmail (email.getD "")) with
    | some _ => (.err 400 "Email already in use", s)
    | none =>
      if (password.getD "").length < 6 then
        (.err 500 "Server error during registration", s)
      else
        (.ok 201 ⟨freshId, name.getD "", normEmail (email.getD ""),
            hashPassword (password.getD "")⟩,
         { s with users := s.users ++ [⟨freshId, name.getD "",
            normEmail (email.getD ""), hashPassword (password.getD "")⟩] })

/-! ## Task store operations (index.js 136-256) -/

/-- The scoped filter `{ _id: taskId, userId: ownerId }` used by the
single-task routes; `findOne` returns the first matching document. -/
def findOneTask (tasks : List Task) (ownerId taskId : Nat) : Option Task :=
  tasks.find? (fun t => t.id == taskId && t.userId == ownerId)

/-- `POST /tasks`: validate required fields (JavaScript falsiness), then
save a task owned by the authenticated caller, with the defaults
`status || 'pending'` and `priority || 'medium'`. -/
def createTask (s : Store) (freshId owner : Nat)
    (title description status priority : Option String)
    (dueDate : Option Int) : Outcome Task × Store :=
  if falsyS title || falsyS description || dueDate.isNone then
    (.err 400 "Missing required fields", s)
  else
    let t : Task :=
      { id := freshId
        title := title.getD ""
        description := description.getD ""
        status := jsOr status "pending"
        priority := jsOr priority "medium"
        dueDate := dueDate.getD 0
        userId := owner
        reminderDate := none }
    (.ok 201 t, { s with tasks := s.tasks ++ [t] })

/-- The query built by `GET /tasks`: always `{ userId }`, plus `status`
and `priority` when the query parameters are truthy. -/
def listQuery (owner : Nat) (status priority : Option String) (t : Task) : Bool :=
  t.userId == owner
    && (falsyS status || t.status == status.getD "")
    && (falsyS priority || t.priority == priority.getD "")

/-- Comparison on `dueDate` in the requested direction
(`sort === 'desc' ? -1 : 1`). -/
def dueRel (desc : Bool) : Task → Task → Prop :=
  fun a b => if desc then b.dueDate ≤ a.dueDate else a.dueDate ≤ b.dueDate

instance (desc : Bool) : DecidableRel (dueRel desc) := by
  intro a b
  unfold dueRel
  infer_instance

instance (desc : Bool) : IsTotal Task (dueRel desc) where
  total a b := by
    unfold dueRel
    rcases desc with _ | _ <;> simp <;> omega

instance (desc : Bool) : IsTrans Task (dueRel desc) where
  trans a b c hab hbc := by
    unfold dueRel at *
    rcases desc with _ | _ <;> simp_all <;> omega

/-- `GET /tasks`: filter the caller's tasks by the truthy query
parameters and sort by `dueDate` in the requested direction. -/
def listTasks (s : Store) (owner : Nat)
    (status priority sort : Option String) : List Task :=
  (s.tasks.filter (listQuery owner status priority)).insertionSort
    (dueRel (sort == some "desc"))

/-- `GET /tasks/:id`: scoped lookup; a miss is a 404. -/
def getTaskById (s : Store) (owner taskId : Nat) : Outcome Task :=
  match findOneTask s.tasks owner taskId with
  | none => .err 404 "Task not found"
  | some t => .ok 200 t

/-- The update object of `PUT /tasks/:id`.  Mongoose strips keys whose
value is `undefined`, so an absent body field updates nothing. -/
structure TaskUpdate where
  title : Option String := none
  description : Option String := none
  status : Option String := none
  priority : Option String := none
  dueDate : Option Int := none
  deriving Repr, DecidableEq

/-- Apply the provided fields of an update to a stored task. -/
def applyUpdate (u : TaskUpdate) (t : Task) : Task :=
  { t with
    title := u.title.getD t.title
    description := u.description.getD t.description
    status := u.status.getD t.status
    priority := u.priority.getD t.priority
    dueDate := u.dueDate.getD t.dueDate }

/-- Replace the first document matching `p` by its image under `f`. -/
def updateFirst (p : Task → Bool) (f : Task → Task) : List Task → List Task
  | [] => []
  | t :: ts => if p t then f t :: ts else t :: updateFirst p f ts

/-- `PUT /tasks/:id`: `findOneAndUpdate` on the scoped filter, returning
the updated document; a miss is a 404 and the store is untouched. -/
def updateTask (s : Store) (owner taskId : Nat) (u : TaskUpdate) :
    Outcome Task × Store :=
  match findOneTask s.tasks owner taskId with
  | none => (.err 404 "Task not found", s)
  | some t =>
    let tasks := updateFirst (fun x => x.id == taskId && x.userId == owner)
      (applyUpdate u) s.tasks
    (.ok 200 (applyUpdate u t), { s with tasks := tasks })

/-- `DELETE /tasks/:id`: `findOneAndDelete` on the scoped filter; a miss
is a 404 and the store is untouched. -/
def deleteTask (s : Store) (owner taskId : Nat) : Outcome String × Store :=
  match findOneTask s.tasks owner taskId with
  | none => (.err 404 "Task not found", s)
  | some _ =>
    let tasks := s.tasks.eraseP (fun x => x.id == taskId && x.userId == owner)
    (.ok 200 "Task deleted successfully", { s with tasks := tasks })

/-! ## Lemmas about header parsing -/

theorem mk_data (s : String) : String.mk s.data = s := by
  cases s
  rfl

theorem splitChars_of_not_mem (sep : Char) (l : List Char) (h : sep ∉ l) :
    splitChars sep l = [l] := by
  induction l with
  | nil => rfl
  | cons c cs ih =>
    simp only [List.mem_cons, not_or] at h
    rw [splitChars, if_neg (Ne.symm h.1), ih h.2]

theorem splitChars_append (sep : Char) (l₁ l₂ : List Char) (h : sep ∉ l₁) :
    splitChars sep (l₁ ++ sep :: l₂) = l₁ :: splitChars sep l₂ := by
  induction l₁ with
  | nil => simp [splitChars]
  | cons c cs ih =>
    simp only [List.mem_cons, not_or] at h
    rw [List.cons_append, splitChars, if_neg (Ne.symm h.1), ih h.2]

/-- Splitting a two-segment header at the space yields both segments. -/
theorem extractToken_scheme (scheme tk : String) (hs : ' ' ∉ scheme.data)
    (ht : ' ' ∉ tk.data) :
    extractToken (some (scheme ++ " " ++ tk)) = some tk := by
  have hdata : (scheme ++ " " ++ tk).data = scheme.data ++ ' ' :: tk.data := by
    simp [String.data_append]
  simp [extractToken, jsSplit, hdata, splitChars_append _ _ _ hs,
    splitChars_of_not_mem _ _ ht, mk_data]

/-- A single-segment header has no second segment. -/
theorem extractToken_single (tk : String) (ht : ' ' ∉ tk.data) :
    extractToken (some tk) = none := by
  simp [extractToken, jsSplit, splitChars_of_not_mem _ _ ht]

/-- A token string that decodes successfully is nonempty. -/
theorem ne_empty_of_decode {tk : String} {p : Token × Nat}
    (h : decodeToken tk = some p) : tk ≠ "" := by
  intro he
  subst he
  exact absurd h (by simp [show decodeToken "" = none from rfl])

/-- A well-signed, unexpired token string passes `jwt.verify`. -/
theorem jwtVerifyStr_ok {secret now : Nat} {tk : String} {t : Token}
    (hdec : decodeToken tk = some (t, sign secret t)) (hexp : now < t.exp) :
    jwtVerifyStr secret now tk = .ok t := by
  simp [jwtVerifyStr, hdec, Nat.not_le.mpr hexp]

/-! ## Claim theorems -/

/-- C9: the Authentication Guard never checks that the Authorization
scheme is the word Bearer: for any two-segment header it takes the second
space-separated segment as the token, so a header such as Basic followed
by a valid token authenticates successfully, while a header consisting of
a single segment (a bare token with no scheme) is rejected exactly as if
no token were supplied. -/
theorem c9_scheme_not_checked (secret now : Nat) (users : List User)
    (scheme tk : String) (t : Token) (u : User)
    (hs : ' ' ∉ scheme.data) (ht : ' ' ∉ tk.data)
    (hdec : decodeToken tk = some (t, sign secret t))
    (hexp : now < t.exp)
    (hu : users.find? (fun x => x.id == t.sub) = some u) :
    authenticateToken secret now users (some (scheme ++ " " ++ tk)) =
      .ok t.sub
    ∧ authenticateToken secret now users (some tk) =
      .error ⟨401, "Access denied. No token provided."⟩ := by
  have hne : tk ≠ "" := ne_empty_of_decode hdec
  constructor
  · simp [authenticateToken, extractToken_scheme _ _ hs ht, hne,
      jwtVerifyStr_ok hdec hexp, hu]
  · simp [authenticateToken, extractToken_single _ ht]

theorem c9_scheme_not_checked_witness :
    authenticateToken 7 100 [⟨42, "a", "a@x.com", "h"⟩]
        (some ("Basic" ++ " " ++ "42.100.86500.432891")) = .ok 42
    ∧ authenticateToken 7 100 [⟨42, "a", "a@x.com", "h"⟩]
        (some "42.100.86500.432891") =
      .error ⟨401, "Access denied. No token provided."⟩ :=
  c9_scheme_not_checked 7 100 [⟨42, "a", "a@x.com", "h"⟩] "Basic"
    "42.100.86500.432891" ⟨42, 100, 86500⟩ ⟨42, "a", "a@x.com", "h"⟩
    (by decide) (by decide) (by decide) (by decide) (by decide)

/-- C2: on a protected request carrying a token that verifies and is
unexpired but whose subject id resolves to no stored User, the Guard
rejects with 401 Invalid token and the handler body never runs (the store
is returned unchanged); with no Authorization header at all, the Guard
rejects with 401 Access denied and performs no further processing. -/
theorem c2_guard_orphan_and_missing {α : Type} (secret now : Nat)
    (op : Store → Nat → Outcome α × Store) (s : Store) (tk : String)
    (t : Token) (ht : ' ' ∉ tk.data)
    (hdec : decodeToken tk = some (t, sign secret t))
    (hexp : now < t.exp)
    (hu : s.users.find? (fun x => x.id == t.sub) = none) :
    protectedEndpoint secret now (some ("Bearer" ++ " " ++ tk)) op s =
      (.err 401 "Invalid token. User not found.", s)
    ∧ protectedEndpoint secret now none op s =
      (.err 401 "Access denied. No token provided.", s) := by
  have hne : tk ≠ "" := ne_empty_of_decode hdec
  constructor
  · have hext : extractToken (some ("Bearer " ++ tk)) = some tk := by
      simpa using extractToken_scheme "Bearer" tk (by decide) ht
    simp [protectedEndpoint, authenticateToken, hext, hne,
      jwtVerifyStr_ok hdec hexp, hu]
  · simp [protectedEndpoint, authenticateToken, extractToken]

theorem c2_guard_orphan_and_missing_witness :
    protectedEndpoint 7 100 (some ("Bearer" ++ " " ++ "42.100.86500.432891"))
        (fun s uid => createTask s 5 uid (some "t") (some "d") none none
          (some 0)) ⟨[], []⟩ =
      (.err 401 "Invalid token. User not found.", ⟨[], []⟩)
    ∧ protectedEndpoint 7 100 none
        (fun s uid => createTask s 5 uid (some "t") (some "d") none none
          (some 0)) ⟨[], []⟩ =
      (.err 401 "Access denied. No token provided.", ⟨[], []⟩) :=
  c2_guard_orphan_and_missing 7 100 _ ⟨[], []⟩ "42.100.86500.432891"
    ⟨42, 100, 86500⟩ (by decide) (by decide) (by decide) (by decide)

/-- C6: a create-task request missing title, description, or dueDate fails
with a 400 ValidationError and persists nothing; otherwise a task owned by
the caller is appended, with status defaulting to pending and priority to
medium when omitted. -/
theorem c6_create_validation_and_defaults (s : Store) (freshId owner : Nat)
    (title description status priority : Option String)
    (dueDate : Option Int) :
    ((falsyS title || falsyS description || dueDate.isNone) = true →
      createTask s freshId owner title description status priority dueDate =
        (.err 400 "Missing required fields", s))
    ∧ ((falsyS title || falsyS description || dueDate.isNone) = false →
      ∃ t : Task,
        createTask s freshId owner title description status priority dueDate =
          (.ok 201 t, { s with tasks := s.tasks ++ [t] })
        ∧ t.userId = owner
        ∧ (status = none → t.status = "pending")
        ∧ (priority = none → t.priority = "medium")) := by
  constructor
  · intro h
    simp [createTask, h]
  · intro h
    refine ⟨⟨freshId, title.getD "", description.getD "",
      jsOr status "pending", jsOr priority "medium", dueDate.getD 0,
      owner, none⟩, ?_, rfl, ?_, ?_⟩
    · simp [createTask, h]
    · intro hs
      simp [hs, jsOr]
    · intro hp
      simp [hp, jsOr]

theorem c6_create_validation_and_defaults_witness :
    createTask ⟨[], []⟩ 1 9 none (some "d") none none (some 3) =
      (.err 400 "Missing required fields", ⟨[], []⟩)
    ∧ ∃ t : Task,
        createTask ⟨[], []⟩ 1 9 (some "T") (some "d") none none (some 3) =
          (.ok 201 t, { Store.mk [] [] with tasks := [] ++ [t] })
        ∧ t.userId = 9
        ∧ ((none : Option String) = none → t.status = "pending")
        ∧ ((none : Option String) = none → t.priority = "medium") :=
  ⟨(c6_create_validation_and_defaults ⟨[], []⟩ 1 9 none (some "d") none none
      (some 3)).1 (by decide),
   (c6_create_validation_and_defaults ⟨[], []⟩ 1 9 (some "T") (some "d") none
      none (some 3)).2 (by decide)⟩

/-- C10: a registration whose password is shorter than 6 characters (name
and email present, email not already taken) creates no User: the model's
minlength validation rejects the save and the handler surfaces a 500
InternalError, not a 400 ValidationError. -/
theorem c10_short_password_500 (s : Store) (freshId : Nat) (n e p : String)
    (hn : n ≠ "") (he : e ≠ "") (hp : p ≠ "")
    (hdup : s.users.find? (fun u => u.email == normEmail e) = none)
    (hlen : p.length < 6) :
    register s freshId (some n) (some e) (some p) =
      (.err 500 "Server error during registration", s) := by
  simp [register, falsyS, hn, he, hp, hdup, hlen]

theorem c10_short_password_500_witness :
    register ⟨[], []⟩ 1 (some "Ann") (some "ann@x.com") (some "abc") =
      (.err 500 "Server error during registration", ⟨[], []⟩) :=
  c10_short_password_500 ⟨[], []⟩ 1 "Ann" "ann@x.com" "abc"
    (by decide) (by decide) (by decide) (by decide) (by decide)

/-- No task matches the scoped filter exactly when no stored task has both
the requested id and the requesting owner. -/
theorem findOneTask_eq_none_iff {tasks : List Task} {owner taskId : Nat} :
    findOneTask tasks owner taskId = none ↔
      ∀ t ∈ tasks, ¬(t.id = taskId ∧ t.userId = owner) := by
  simp [findOneTask, List.find?_eq_none]

/-- C8: deleting a task id with no match under the caller's ownership
(including an id already deleted) yields 404 NotFound, leaves the store
unchanged, and keeps doing both on every repeated invocation; moreover,
when stored ids are unique, a successful delete really removes the match,
so a second delete of the same id finds nothing. -/
theorem c8_delete_idempotent (s : Store) (owner taskId : Nat) :
    (findOneTask s.tasks owner taskId = none →
      ∀ n : Nat,
        deleteTask ((fun st => (deleteTask st owner taskId).2)^[n] s)
            owner taskId =
          (.err 404 "Task not found", s))
    ∧ ((s.tasks.map Task.id).Nodup →
      ∀ t, findOneTask s.tasks owner taskId = some t →
        findOneTask ((deleteTask s owner taskId).2).tasks owner taskId =
          none) := by
  constructor
  · intro h n
    have hfix : (fun st => (deleteTask st owner taskId).2) s = s := by
      simp [deleteTask, h]
    rw [Function.iterate_fixed hfix n]
    simp [deleteTask, h]
  · intro hnd t ht
    have ht' : List.find? (fun x => x.id == taskId && x.userId == owner)
        s.tasks = some t := ht
    have htmem : t ∈ s.tasks := List.mem_of_find?_eq_some ht'
    have htp := List.find?_some ht'
    obtain ⟨a, l₁, l₂, hl₁, hpa, hsplit, herase⟩ :=
      List.exists_of_eraseP (p := fun x => x.id == taskId && x.userId == owner)
        htmem htp
    simp only [deleteTask, findOneTask] at *
    rw [ht]
    simp only [herase]
    rw [List.find?_eq_none]
    intro x hx hpx
    have hxid : x.id = taskId := by
      simp only [Bool.and_eq_true, beq_iff_eq] at hpx
      exact hpx.1
    have haid : a.id = taskId := by
      simp only [Bool.and_eq_true, beq_iff_eq] at hpa
      exact hpa.1
    have hmapnd : ((l₁ ++ a :: l₂).map Task.id).Nodup := by
      rw [← hsplit]; exact hnd
    simp only [List.map_append, List.map_cons] at hmapnd
    have hnotin : a.id ∉ l₁.map Task.id ∧ a.id ∉ l₂.map Task.id := by
      rcases List.nodup_append.mp hmapnd with ⟨h1, h2, h3⟩
      refine ⟨fun hc => h3 hc (List.mem_cons_self _ _), ?_⟩
      exact fun hc => (List.nodup_cons.mp h2).1 hc
    rcases List.mem_append.mp hx with hx1 | hx2
    · exact hl₁ x hx1 hpx
    · have : x.id ∈ l₂.map Task.id := List.mem_map_of_mem Task.id hx2
      rw [hxid, ← haid] at this
      exact hnotin.2 this

theorem c8_delete_idempotent_witness :
    deleteTask ⟨[], [Task.mk 1 "t" "d" "pending" "medium" 3 7 none]⟩ 9 1 =
      (.err 404 "Task not found",
        ⟨[], [Task.mk 1 "t" "d" "pending" "medium" 3 7 none]⟩)
    ∧ findOneTask
        ((deleteTask ⟨[], [Task.mk 1 "t" "d" "pending" "medium" 3 7 none]⟩
          7 1).2).tasks 7 1 = none :=
  ⟨by
    have h :=
      (c8_delete_idempotent
        ⟨[], [Task.mk 1 "t" "d" "pending" "medium" 3 7 none]⟩ 9 1).1
        (by decide) 0
    simpa using h,
   (c8_delete_idempotent
      ⟨[], [Task.mk 1 "t" "d" "pending" "medium" 3 7 none]⟩ 7 1).2
     (by decide) (Task.mk 1 "t" "d" "pending" "medium" 3 7 none) (by decide)⟩

/-- C1: getById, update, and delete invoked by caller b on a task id whose
every holder is owned by a different user a fail with 404 NotFound and
leave the store unchanged — the very same outcomes produced on any id for
which no task exists at all. -/
theorem c1_cross_owner_notfound (s : Store) (a b taskId : Nat)
    (u : TaskUpdate)
    (hown : ∀ t ∈ s.tasks, t.id = taskId → t.userId = a) (hne : b ≠ a) :
    getTaskById s b taskId = .err 404 "Task not found"
    ∧ updateTask s b taskId u = (.err 404 "Task not found", s)
    ∧ deleteTask s b taskId = (.err 404 "Task not found", s)
    ∧ ∀ (s₂ : Store) (j : Nat), (∀ t ∈ s₂.tasks, t.id ≠ j) →
        getTaskById s₂ b j = .err 404 "Task not found"
        ∧ updateTask s₂ b j u = (.err 404 "Task not found", s₂)
        ∧ deleteTask s₂ b j = (.err 404 "Task not found", s₂) := by
  have hnone : findOneTask s.tasks b taskId = none := by
    rw [findOneTask_eq_none_iff]
    rintro t htmem ⟨h1, h2⟩
    exact hne (h2.symm.trans (hown t htmem h1))
  refine ⟨?_, ?_, ?_, ?_⟩
  · simp [getTaskById, hnone]
  · simp [updateTask, hnone]
  · simp [deleteTask, hnone]
  · intro s₂ j hj
    have hnone₂ : findOneTask s₂.tasks b j = none := by
      rw [findOneTask_eq_none_iff]
      rintro t htmem ⟨h1, _⟩
      exact hj t htmem h1
    exact ⟨by simp [getTaskById, hnone₂], by simp [updateTask, hnone₂],
      by simp [deleteTask, hnone₂]⟩

theorem c1_cross_owner_notfound_witness :
    getTaskById ⟨[], [Task.mk 1 "t" "d" "pending" "medium" 3 7 none]⟩ 9 1 =
      .err 404 "Task not found"
    ∧ updateTask ⟨[], [Task.mk 1 "t" "d" "pending" "medium" 3 7 none]⟩ 9 1
        ⟨none, none, some "completed", none, none⟩ =
      (.err 404 "Task not found",
        ⟨[], [Task.mk 1 "t" "d" "pending" "medium" 3 7 none]⟩)
    ∧ deleteTask ⟨[], [Task.mk 1 "t" "d" "pending" "medium" 3 7 none]⟩ 9 1 =
      (.err 404 "Task not found",
        ⟨[], [Task.mk 1 "t" "d" "pending" "medium" 3 7 none]⟩)
    ∧ ∀ (s₂ : Store) (j : Nat), (∀ t ∈ s₂.tasks, t.id ≠ j) →
        getTaskById s₂ 9 j = .err 404 "Task not found"
        ∧ updateTask s₂ 9 j ⟨none, none, some "completed", none, none⟩ =
          (.err 404 "Task not found", s₂)
        ∧ deleteTask s₂ 9 j = (.err 404 "Task not found", s₂) :=
  c1_cross_owner_notfound ⟨[], [Task.mk 1 "t" "d" "pending" "medium" 3 7 none]⟩
    7 9 1 ⟨none, none, some "completed", none, none⟩ (by decide) (by decide)

/-- An update found by the scoped filter replaces exactly the first
matching document, and the replacement still matches the filter, so the
scoped lookup afterwards returns the updated document. -/
theorem find?_updateFirst (p : Task → Bool) (f : Task → Task) (l : List Task)
    (t : Task) (h : l.find? p = some t) (hf : p (f t) = true) :
    (updateFirst p f l).find? p = some (f t) := by
  induction l with
  | nil => simp at h
  | cons x xs ih =>
    by_cases hx : p x = true
    · rw [List.find?_cons_of_pos _ hx] at h
      injection h with h
      subst h
      simp [updateFirst, hx, List.find?_cons_of_pos _ hf]
    · rw [List.find?_cons_of_neg _ hx] at h
      simp [updateFirst, hx, List.find?_cons_of_neg _ hx, ih h]

/-- C5: updating an owned task with a subset of fields succeeds, changes
exactly the provided fields of that task, leaves every omitted field at
its prior value, and a subsequent scoped get returns the updated task. -/
theorem c5_update_frame (s : Store) (owner taskId : Nat) (u : TaskUpdate)
    (t : Task) (h : findOneTask s.tasks owner taskId = some t) :
    ∃ s₂ : Store,
      updateTask s owner taskId u = (.ok 200 (applyUpdate u t), s₂)
      ∧ getTaskById s₂ owner taskId = .ok 200 (applyUpdate u t)
      ∧ (u.title = none → (applyUpdate u t).title = t.title)
      ∧ (u.description = none →
          (applyUpdate u t).description = t.description)
      ∧ (u.status = none → (applyUpdate u t).status = t.status)
      ∧ (u.priority = none → (applyUpdate u t).priority = t.priority)
      ∧ (u.dueDate = none → (applyUpdate u t).dueDate = t.dueDate)
      ∧ (∀ v, u.status = some v → (applyUpdate u t).status = v)
      ∧ (applyUpdate u t).id = t.id
      ∧ (applyUpdate u t).userId = t.userId := by
  have ht' : List.find? (fun x => x.id == taskId && x.userId == owner)
      s.tasks = some t := h
  have htp := List.find?_some ht'
  have hf : ((applyUpdate u t).id == taskId
      && (applyUpdate u t).userId == owner) = true := by
    simpa [applyUpdate] using htp
  let tasks₂ := updateFirst (fun x => x.id == taskId && x.userId == owner)
    (applyUpdate u) s.tasks
  refine ⟨{ s with tasks := tasks₂ }, ?_, ?_, ?_, ?_, ?_, ?_, ?_, ?_, rfl, rfl⟩
  · simp [updateTask, h, tasks₂]
  · simp only [getTaskById, findOneTask]
    rw [find?_updateFirst _ _ _ _ ht' hf]
  · intro hv; simp [applyUpdate, hv]
  · intro hv; simp [applyUpdate, hv]
  · intro hv; simp [applyUpdate, hv]
  · intro hv; simp [applyUpdate, hv]
  · intro hv; simp [applyUpdate, hv]
  · intro v hv; simp [applyUpdate, hv]

theorem c5_update_frame_witness :
    ∃ s₂ : Store,
      updateTask ⟨[], [Task.mk 1 "T" "d" "pending" "high" 3 9 none]⟩ 9 1
          ⟨none, none, some "completed", none, none⟩ =
        (.ok 200 (applyUpdate ⟨none, none, some "completed", none, none⟩
          (Task.mk 1 "T" "d" "pending" "high" 3 9 none)), s₂)
      ∧ getTaskById s₂ 9 1 =
        .ok 200 (applyUpdate ⟨none, none, some "completed", none, none⟩
          (Task.mk 1 "T" "d" "pending" "high" 3 9 none))
      ∧ ((none : Option String) = none →
          (applyUpdate ⟨none, none, some "completed", none, none⟩
            (Task.mk 1 "T" "d" "pending" "high" 3 9 none)).title = "T")
      ∧ ((none : Option String) = none →
          (applyUpdate ⟨none, none, some "completed", none, none⟩
            (Task.mk 1 "T" "d" "pending" "high" 3 9 none)).description = "d")
      ∧ ((some "completed" : Option String) = none →
          (applyUpdate ⟨none, none, some "completed", none, none⟩
            (Task.mk 1 "T" "d" "pending" "high" 3 9 none)).status = "pending")
      ∧ ((none : Option String) = none →
          (applyUpdate ⟨none, none, some "completed", none, none⟩
            (Task.mk 1 "T" "d" "pending" "high" 3 9 none)).priority = "high")
      ∧ ((none : Option Int) = none →
          (applyUpdate ⟨none, none, some "completed", none, none⟩
            (Task.mk 1 "T" "d" "pending" "high" 3 9 none)).dueDate = 3)
      ∧ (∀ v, (some "completed" : Option String) = some v →
          (applyUpdate ⟨none, none, some "completed", none, none⟩
            (Task.mk 1 "T" "d" "pending" "high" 3 9 none)).status = v)
      ∧ (applyUpdate ⟨none, none, some "completed", none, none⟩
          (Task.mk 1 "T" "d" "pending" "high" 3 9 none)).id = 1
      ∧ (applyUpdate ⟨none, none, some "completed", none, none⟩
          (Task.mk 1 "T" "d" "pending" "high" 3 9 none)).userId = 9 :=
  c5_update_frame ⟨[], [Task.mk 1 "T" "d" "pending" "high" 3 9 none]⟩ 9 1
    ⟨none, none, some "completed", none, none⟩
    (Task.mk 1 "T" "d" "pending" "high" 3 9 none) (by decide)

/-- When stored emails are pairwise distinct, at most one user matches any
given email value. -/
theorem length_filter_email_le_one {l : List User}
    (h : (l.map User.email).Nodup) (e : String) :
    (l.filter (fun u => u.email == e)).length ≤ 1 := by
  induction l with
  | nil => simp
  | cons u us ih =>
    simp only [List.map_cons, List.nodup_cons] at h
    by_cases hu : u.email = e
    · have hnone : us.filter (fun x => x.email == e) = [] := by
        rw [List.filter_eq_nil_iff]
        intro x hx
        simp only [beq_iff_eq]
        intro hc
        exact h.1 (hu ▸ hc ▸ List.mem_map_of_mem User.email hx)
      simp [List.filter_cons, hu, hnone]
    · simpa [List.filter_cons, hu] using ih h.2

/-- Registration leaves every user record other than the appended one
untouched; on any failure it leaves the user list untouched. -/
theorem register_users_shape (s : Store) (fid : Nat)
    (nm em pw : Option String) :
    (register s fid nm em pw).2.users = s.users
    ∨ ∃ u : User, u.email = normEmail (em.getD "")
        ∧ (register s fid nm em pw).2.users = s.users ++ [u]
        ∧ s.users.find? (fun x => x.email == normEmail (em.getD "")) =
            none := by
  unfold register
  split
  · exact .inl rfl
  · split
    · exact .inl rfl
    · split
      · exact .inl rfl
      · rename_i hfalsy hfind hlen
        exact .inr ⟨_, rfl, rfl, hfind⟩

/-- C3: with valid inputs, two registrations whose emails normalize to the
same address yield exactly one success and one DuplicateEmail failure that
persists nothing; and registration preserves the invariant that stored
emails are pairwise distinct, so at most one User exists per normalized
email; a registration whose normalized email matches a stored user fails
with DuplicateEmail and persists nothing. -/
theorem c3_unique_email (s : Store) (fid1 fid2 : Nat)
    (n1 e1 p1 n2 e2 p2 : String)
    (hn1 : n1 ≠ "") (he1 : e1 ≠ "") (hp1 : p1 ≠ "")
    (hn2 : n2 ≠ "") (he2 : e2 ≠ "") (hp2 : p2 ≠ "")
    (hlen : ¬p1.length < 6)
    (hfree : s.users.find? (fun u => u.email == normEmail e1) = none)
    (hsame : normEmail e2 = normEmail e1) :
    (∃ u1 : User,
      register s fid1 (some n1) (some e1) (some p1) =
        (.ok 201 u1, { s with users := s.users ++ [u1] })
      ∧ u1.email = normEmail e1
      ∧ register { s with users := s.users ++ [u1] } fid2
          (some n2) (some e2) (some p2) =
        (.err 400 "Email already in use",
          { s with users := s.users ++ [u1] }))
    ∧ (∀ (fid : Nat) (nm em pw : Option String),
        (s.users.map User.email).Nodup →
          ((register s fid nm em pw).2.users.map User.email).Nodup
          ∧ ∀ e : String,
              ((register s fid nm em pw).2.users.filter
                (fun u => u.email == normEmail e)).length ≤ 1)
    ∧ (∀ (fid : Nat) (nm em pw : String) (u₀ : User), nm ≠ "" → em ≠ "" →
        pw ≠ "" →
        s.users.find? (fun u => u.email == normEmail em) = some u₀ →
        register s fid (some nm) (some em) (some pw) =
          (.err 400 "Email already in use", s)) := by
  refine ⟨?_, ?_, ?_⟩
  · refine ⟨(⟨fid1, n1, normEmail e1, hashPassword p1⟩ : User), ?_, rfl, ?_⟩
    · simp [register, falsyS, hn1, he1, hp1, hfree, hlen]
    · have h1 : List.find? (fun u => u.email == normEmail e2) s.users =
          none := by
        rw [hsame]; exact hfree
      simp [register, falsyS, hn2, he2, hp2, h1, hsame, hfree]
  · intro fid nm em pw hnd
    have hshape := register_users_shape s fid nm em pw
    have hnd₂ : ((register s fid nm em pw).2.users.map User.email).Nodup := by
      rcases hshape with hsame₂ | ⟨u, hue, happ, hnone⟩
      · rw [hsame₂]; exact hnd
      · rw [happ, List.map_append, List.nodup_append]
        refine ⟨hnd, by simp, ?_⟩
        intro x hx hxmem
        simp only [List.map_cons, List.map_nil, List.mem_cons,
          List.not_mem_nil, or_false] at hxmem
        obtain ⟨y, hymem, hyx⟩ := List.mem_map.mp hx
        rw [List.find?_eq_none] at hnone
        exact hnone y hymem (by simp [hyx, hxmem, hue])
    exact ⟨hnd₂, fun e => length_filter_email_le_one hnd₂ (normEmail e)⟩
  · intro fid nm em pw u₀ hnm hem hpw hfind
    simp [register, falsyS, hnm, hem, hpw, hfind]

theorem c3_unique_email_witness :
    (∃ u1 : User,
      register ⟨[], []⟩ 1 (some "Ann") (some "Ann@X.com") (some "secret1") =
        (.ok 201 u1, { Store.mk [] [] with users := [] ++ [u1] })
      ∧ u1.email = normEmail "Ann@X.com"
      ∧ register { Store.mk [] [] with users := [] ++ [u1] } 2
          (some "Bob") (some "ann@x.COM") (some "secret2") =
        (.err 400 "Email already in use",
          { Store.mk [] [] with users := [] ++ [u1] }))
    ∧ (∀ (fid : Nat) (nm em pw : Option String),
        (([] : List User).map User.email).Nodup →
          ((register ⟨[], []⟩ fid nm em pw).2.users.map User.email).Nodup
          ∧ ∀ e : String,
              ((register ⟨[], []⟩ fid nm em pw).2.users.filter
                (fun u => u.email == normEmail e)).length ≤ 1)
    ∧ (∀ (fid : Nat) (nm em pw : String) (u₀ : User), nm ≠ "" → em ≠ "" →
        pw ≠ "" →
        ([] : List User).find? (fun u => u.email == normEmail em) = some u₀ →
        register ⟨[], []⟩ fid (some nm) (some em) (some pw) =
          (.err 400 "Email already in use", ⟨[], []⟩)) :=
  c3_unique_email ⟨[], []⟩ 1 2 "Ann" "Ann@X.com" "secret1" "Bob" "ann@x.COM"
    "secret2" (by decide) (by decide) (by decide) (by decide) (by decide)
    (by decide) (by decide) (by decide) (by decide)

/-- The status filter clause of the list query holds exactly when the
claim's reading holds: a truthy status parameter must match the task's
field, and an omitted or empty parameter constrains nothing. -/
theorem filter_clause_iff (v : Option String) (fld : String) :
    (falsyS v || fld == v.getD "") = true ↔
      ∀ x, v = some x → x ≠ "" → fld = x := by
  cases v with
  | none => simp [falsyS]
  | some x =>
    by_cases hx : x = ""
    · subst hx
      simp [falsyS]
    · simp [falsyS, hx]

/-- C7: list returns exactly the caller's tasks matching every truthy
filter, sorted by dueDate in the requested direction (descending exactly
when desc is requested); with no filters it returns all of the caller's
tasks, and with no matches it returns the empty sequence. -/
theorem c7_list_filter_sort (s : Store) (owner : Nat)
    (status priority sort : Option String) :
    (listTasks s owner status priority sort).Perm
        (s.tasks.filter (listQuery owner status priority))
    ∧ (listTasks s owner status priority sort).Sorted
        (dueRel (sort == some "desc"))
    ∧ (∀ t : Task, t ∈ listTasks s owner status priority sort ↔
        t ∈ s.tasks ∧ t.userId = owner
          ∧ (∀ x, status = some x → x ≠ "" → t.status = x)
          ∧ (∀ x, priority = some x → x ≠ "" → t.priority = x))
    ∧ (listTasks s owner none none sort).Perm
        (s.tasks.filter (fun t => t.userId == owner))
    ∧ (s.tasks.filter (listQuery owner status priority) = [] →
        listTasks s owner status priority sort = []) := by
  refine ⟨List.perm_insertionSort _ _, List.sorted_insertionSort _ _,
    ?_, ?_, ?_⟩
  · intro t
    rw [listTasks, List.mem_insertionSort, List.mem_filter]
    constructor
    · rintro ⟨hmem, hq⟩
      simp only [listQuery, Bool.and_eq_true, beq_iff_eq] at hq
      exact ⟨hmem, hq.1.1,
        (filter_clause_iff status t.status).mp (by
          simpa using hq.1.2),
        (filter_clause_iff priority t.priority).mp (by
          simpa using hq.2)⟩
    · rintro ⟨hmem, howner, hst, hpr⟩
      refine ⟨hmem, ?_⟩
      simp only [listQuery, Bool.and_eq_true, beq_iff_eq]
      exact ⟨⟨howner, by simpa using (filter_clause_iff status t.status).mpr hst⟩,
        by simpa using (filter_clause_iff priority t.priority).mpr hpr⟩
  · rw [listTasks]
    have hq : listQuery owner none none = fun t => t.userId == owner := by
      funext t
      simp [listQuery, falsyS]
    rw [hq]
    exact List.perm_insertionSort _ _
  · intro hemp
    rw [listTasks, hemp]
    rfl

theorem c7_list_filter_sort_witness :
    (listTasks (Store.mk [] [Task.mk 1 "a" "d" "pending" "medium" 5 9 none,
        Task.mk 2 "b" "d" "completed" "low" 3 9 none,
        Task.mk 3 "c" "d" "pending" "low" 4 8 none]) 9 (some "pending") none
        (some "desc")).Perm
      ((Store.mk [] [Task.mk 1 "a" "d" "pending" "medium" 5 9 none,
        Task.mk 2 "b" "d" "completed" "low" 3 9 none,
        Task.mk 3 "c" "d" "pending" "low" 4 8 none]).tasks.filter
        (listQuery 9 (some "pending") none))
    ∧ (listTasks (Store.mk [] [Task.mk 1 "a" "d" "pending" "medium" 5 9 none,
        Task.mk 2 "b" "d" "completed" "low" 3 9 none,
        Task.mk 3 "c" "d" "pending" "low" 4 8 none]) 9 (some "pending") none
        (some "desc")).Sorted
      (dueRel ((some "desc" : Option String) == some "desc")) :=
  ⟨(c7_list_filter_sort (Store.mk []
      [Task.mk 1 "a" "d" "pending" "medium" 5 9 none,
       Task.mk 2 "b" "d" "completed" "low" 3 9 none,
       Task.mk 3 "c" "d" "pending" "low" 4 8 none]) 9 (some "pending") none
      (some "desc")).1,
   (c7_list_filter_sort (Store.mk []
      [Task.mk 1 "a" "d" "pending" "medium" 5 9 none,
       Task.mk 2 "b" "d" "completed" "low" 3 9 none,
       Task.mk 3 "c" "d" "pending" "low" 4 8 none]) 9 (some "pending") none
      (some "desc")).2.1⟩

/-- C4 is false as stated: an unparseable token and a well-signed but
expired token fail for different reasons inside the verifier, yet the
result delivered to the caller is the identical 400 response in both
cases — the two failure kinds are not distinguishable there. -/
theorem c4_counterexample :
    jwtVerifyStr 7 200000 "garbage" = .error .TokenMalformed
    ∧ jwtVerifyStr 7 200000 "42.100.86500.432891" = .error .TokenExpired
    ∧ authenticateToken 7 200000 [⟨42, "a", "a@x.com", "h"⟩]
        (some "Bearer garbage") =
      authenticateToken 7 200000 [⟨42, "a", "a@x.com", "h"⟩]
        (some "Bearer 42.100.86500.432891")
    ∧ authenticateToken 7 200000 [⟨42, "a", "a@x.com", "h"⟩]
        (some "Bearer 42.100.86500.432891") =
      .error ⟨400, "Invalid or expired token."⟩ :=
  ⟨rfl, rfl, rfl, rfl⟩

/-- C4 (amended): the verifier itself distinguishes the two failure kinds
— an unparseable or wrongly-signed token yields TokenMalformed, and a
well-signed token past its expiry yields TokenExpired — but the
Authentication Guard maps every verification failure to the single 400
Invalid-or-expired response, so the two kinds are not distinguishable in
the result delivered to the requesting client. -/
theorem c4_verifier_distinguishes_guard_collapses (secret now : Nat)
    (s : String) :
    (decodeToken s = none →
      jwtVerifyStr secret now s = .error .TokenMalformed)
    ∧ (∀ (t : Token) (sig : Nat), decodeToken s = some (t, sig) →
        sig ≠ sign secret t →
        jwtVerifyStr secret now s = .error .TokenMalformed)
    ∧ (∀ t : Token, decodeToken s = some (t, sign secret t) → t.exp ≤ now →
        jwtVerifyStr secret now s = .error .TokenExpired)
    ∧ (∀ (users : List User) (e : VerifyError), s ≠ "" → ' ' ∉ s.data →
        jwtVerifyStr secret now s = .error e →
        authenticateToken secret now users (some ("Bearer" ++ " " ++ s)) =
          .error ⟨400, "Invalid or expired token."⟩) := by
  refine ⟨?_, ?_, ?_, ?_⟩
  · intro h
    simp [jwtVerifyStr, h]
  · intro t sig h hne
    simp [jwtVerifyStr, h, hne]
  · intro t h hexp
    simp [jwtVerifyStr, h, hexp]
  · intro users e hns hnosp hver
    have hext : extractToken (some ("Bearer " ++ s)) = some s := by
      simpa using extractToken_scheme "Bearer" s (by decide) hnosp
    simp [authenticateToken, hext, hns, hver]

theorem c4_verifier_distinguishes_guard_collapses_witness :
    jwtVerifyStr 7 200000 "garbage" = .error .TokenMalformed
    ∧ jwtVerifyStr 7 200000 "42.100.86500.432891" = .error .TokenExpired
    ∧ authenticateToken 7 200000 [] (some ("Bearer" ++ " " ++ "garbage")) =
        .error ⟨400, "Invalid or expired token."⟩ :=
  ⟨(c4_verifier_distinguishes_guard_collapses 7 200000 "garbage").1
      (by decide),
   (c4_verifier_distinguishes_guard_collapses 7 200000
      "42.100.86500.432891").2.2.1 ⟨42, 100, 86500⟩ (by decide) (by decide),
   (c4_verifier_distinguishes_guard_collapses 7 200000
      "garbage").2.2.2 [] .TokenMalformed (by decide) (by decide) (by rfl)⟩

end TaskBackend
